import Mathlib

/-!
Verification of the 01-hetk booking system (slot generation, booking
coordinator, payment webhook) against its natural-language specification.

The embedding models:
* `src/app/api/generate-slots/route.ts` — slot generation (`generateSlotsForCourt`,
  the court loop of the POST handler and the keyed upsert into `available_slots`);
* the `create-booking` edge function — the reservation handler, both as a
  sequential function with failure oracles and as a resumable step machine so
  that interleavings of two concurrent invocations can be examined;
* `supabase/functions/stripe-webhook/index.ts` — the payment-notification
  handler (`checkout.session.completed` / `checkout.session.expired`).

Calendar dates are modelled as natural numbers counting days since
1970-01-01 (the integral day value of a JS `Date` at UTC midnight, which is
what `new Date("YYYY-MM-DD")` produces).  `Date.prototype.getDay` returns
0..6 with 0 = Sunday; 1970-01-01 was a Thursday, hence `(d + 4) % 7`.
Times of day are modelled as minutes since midnight (the `totalMinutes` /
`endTotalMinutes` variables of the source); the `HH:MM:SS` strings the
source stores are recovered by `fmtTime`.
-/

/-- JS `Date.prototype.getDay` for a date `d` days after 1970-01-01 (UTC):
0 = Sunday, ..., 6 = Saturday.  1970-01-01 (d = 0) was a Thursday (4). -/
def getDay (d : Nat) : Nat := (d + 4) % 7

/-- route.ts line 80: `currentDate.getDay() === 0 || currentDate.getDay() === 6`. -/
def isWeekend (d : Nat) : Bool := getDay d == 0 || getDay d == 6

/-- One element of the `slots` array built by `generateSlotsForCourt`
(route.ts lines 24–30 / 69–75).  `slot_date` is the epoch-day index of the
`YYYY-MM-DD` string the source stores; `startTotalMinutes` and
`endTotalMinutes` are the source local variables `totalMinutes` and
`endTotalMinutes`, from which the stored `start_time` / `end_time` strings
are formatted. -/
structure GenSlot where
  court_name : String
  slot_date : Nat
  startTotalMinutes : Nat
  endTotalMinutes : Nat
  base_price_cents : Nat
deriving DecidableEq

/-- Rendering of a number below 100 as two decimal digits (`padStart` with a
leading zero). -/
def pad2 (n : Nat) : String := if n < 10 then "0" ++ toString n else toString n

/-- The `HH:MM:00` string route.ts lines 91 and 95 build from a
minutes-since-midnight value. -/
def fmtTime (m : Nat) : String := pad2 (m / 60) ++ ":" ++ pad2 (m % 60) ++ ":00"

/-- The stored `start_time` string of a generated slot. -/
def GenSlot.start_time (s : GenSlot) : String := fmtTime s.startTotalMinutes

/-- The stored `end_time` string of a generated slot. -/
def GenSlot.end_time (s : GenSlot) : String := fmtTime s.endTotalMinutes

/-- The slot pushed for loop index `k` (route.ts lines 85–103).  The loop
variable runs `hour = 7, 8.5, 10, ...`, i.e. `hour = 7 + 1.5 * k`; these
values are exact in binary floating point, so
`totalMinutes = hour * 60 + offset = 420 + 90 * k + offset` exactly.
Price (lines 80–81, 102): weekend 65 € else 40 €, times 100 cents. -/
def slotAtTick (courtName : String) (offset : Nat) (d : Nat) (k : Nat) : GenSlot :=
  { court_name := courtName
    slot_date := d
    startTotalMinutes := 420 + 90 * k + offset
    endTotalMinutes := (420 + 90 * k + offset) + 90
    base_price_cents := (if isWeekend d then 65 else 40) * 100 }

/-- The loop indices actually executed for a given court offset:
`for (let hour = 7; hour < 23; hour += 1.5)` admits `k = 0..10`
(`7 + 1.5 * 10 = 22 < 23`), and `if (startHour >= 23) break` (line 89)
stops at the first tick whose `startHour = Math.floor(totalMinutes / 60)`
reaches 23; a `break` in an ascending loop is exactly `takeWhile`. -/
def ticksForOffset (offset : Nat) : List Nat :=
  (List.range 11).takeWhile (fun k => (420 + 90 * k + offset) / 60 < 23)

/-- The inner (per-date) loop body of `generateSlotsForCourt`
(route.ts lines 83–104). -/
def generateSlotsForDate (courtName : String) (offset : Nat) (d : Nat) : List GenSlot :=
  (ticksForOffset offset).map (slotAtTick courtName offset d)

/-- Model of `generateSlotsForCourt(courtName, config, startDate, endDate)`
(route.ts lines 63–110): the `while (currentDate <= endDateObj)` loop visits
`startDate, startDate + 1, ..., endDate` (no iterations when
`startDate > endDate`), generating the per-date slot list each time. -/
def generateSlotsForCourt (courtName : String) (offset : Nat)
    (startDate endDate : Nat) : List GenSlot :=
  (List.range (endDate + 1 - startDate)).flatMap
    (fun i => generateSlotsForDate courtName offset (startDate + i))

/-- The court loop of the POST handler (route.ts lines 33–41): concatenate the
slots of every configured court. -/
def postGenerateSlots (courts : List (String × Nat)) (startDate endDate : Nat) :
    List GenSlot :=
  courts.flatMap (fun c => generateSlotsForCourt c.1 c.2 startDate endDate)

/-- Absolute start of the half-open interval of a slot, in minutes since the
epoch (date times 1440 plus the start time of day). -/
def GenSlot.absStart (s : GenSlot) : Nat := s.slot_date * 1440 + s.startTotalMinutes

/-- Absolute end of the half-open interval of a slot, in minutes since the
epoch. -/
def GenSlot.absEnd (s : GenSlot) : Nat := s.slot_date * 1440 + s.endTotalMinutes

/-!
Persisted state: the `available_slots` and `bookings` tables
(QUICK-START.md schema; `current_price_cents` from the production schema in
the README, defaulting to `base_price_cents`).
-/

/-- A row of the `available_slots` table.  `startTotalMinutes` /
`endTotalMinutes` are the stored `start_time` / `end_time` values in
minutes since midnight. -/
structure SlotRow where
  id : Nat
  court_name : String
  slot_date : Nat
  startTotalMinutes : Nat
  endTotalMinutes : Nat
  base_price_cents : Nat
  current_price_cents : Nat
  is_available : Bool
deriving DecidableEq

/-- Booking `status` values (schema CHECK constraint). -/
inductive BStatus where
  | pending
  | confirmed
  | cancelled
  | completed
  | noShow
deriving DecidableEq

/-- A row of the `bookings` table. -/
structure BookingRow where
  id : Nat
  slot_id : Nat
  customer_name : String
  customer_email : String
  customer_phone : String
  stripe_payment_intent_id : String
  amount_paid_cents : Nat
  status : BStatus
deriving DecidableEq

/-- The shared mutable database state: the two tables the coordinator and
the webhook read and write. -/
structure DBState where
  slots : List SlotRow
  bookings : List BookingRow
deriving DecidableEq

/-!
The keyed upsert of the POST handler (route.ts lines 43–48):
`.upsert` with conflict target `court_name,slot_date,start_time` against
the schema constraint `UNIQUE(court_name, slot_date, start_time)`.  Postgres
`INSERT ... ON CONFLICT (key) DO UPDATE` sets exactly the columns present
in the payload; the payload objects of route.ts carry `court_name`,
`slot_date`, `start_time`, `end_time`, `base_price_cents` and nothing else,
so on conflict only `end_time` and `base_price_cents` are written, while
`id`, `is_available` and `current_price_cents` keep their stored values.
A fresh insert takes the column defaults (`is_available = TRUE`,
`current_price_cents = base_price_cents`).
-/

/-- The conflict key `(court_name, slot_date, start_time)` of a stored row. -/
def rowKey (r : SlotRow) : String × Nat × Nat :=
  (r.court_name, r.slot_date, r.startTotalMinutes)

/-- Whether a stored row collides with a payload slot on the conflict key. -/
def sameKey (r : SlotRow) (s : GenSlot) : Bool :=
  r.court_name == s.court_name && r.slot_date == s.slot_date &&
    r.startTotalMinutes == s.startTotalMinutes

/-- Upsert of a single payload slot into the table. -/
def upsertRow (table : List SlotRow) (nextId : Nat) (s : GenSlot) :
    List SlotRow × Nat :=
  if table.any (fun r => sameKey r s) then
    (table.map (fun r =>
      if sameKey r s then
        { r with endTotalMinutes := s.endTotalMinutes,
                 base_price_cents := s.base_price_cents }
      else r), nextId)
  else
    (table ++ [{ id := nextId
                 court_name := s.court_name
                 slot_date := s.slot_date
                 startTotalMinutes := s.startTotalMinutes
                 endTotalMinutes := s.endTotalMinutes
                 base_price_cents := s.base_price_cents
                 current_price_cents := s.base_price_cents
                 is_available := true }], nextId + 1)

/-- The whole upsert call: every payload slot in order. -/
def upsertSlots (table : List SlotRow) (nextId : Nat) (slots : List GenSlot) :
    List SlotRow × Nat :=
  slots.foldl (fun acc s => upsertRow acc.1 acc.2 s) (table, nextId)

/-!
The `stripe-webhook` edge function (index.ts lines 44–93).  A verified
event is dispatched on `event.type`; every handled path responds 200.
-/

/-- The two event kinds the webhook dispatches on, carrying the checkout
session id (the stored `stripe_payment_intent_id`), plus the default
branch. -/
inductive StripeEvent where
  | checkoutSessionCompleted (sessionId : String)
  | checkoutSessionExpired (sessionId : String)
  | otherEvent
deriving DecidableEq

/-- index.ts lines 51–54: the update setting `status` to `confirmed` on rows
whose `stripe_payment_intent_id` equals the session id, applied to one row. -/
def confirmBooking (sid : String) (b : BookingRow) : BookingRow :=
  if b.stripe_payment_intent_id == sid then { b with status := BStatus.confirmed }
  else b

/-- The webhook handler after signature verification: returns the new
database state and the HTTP status code of the response.
`checkout.session.completed` sets `status = confirmed` on every matching
booking; `checkout.session.expired` looks the booking up with `.single()`
(success exactly when one row matches), deletes it, and sets its slot
`is_available = true`.  All paths return 200. -/
def handleWebhook (st : DBState) (ev : StripeEvent) : DBState × Nat :=
  match ev with
  | StripeEvent.checkoutSessionCompleted sid =>
      ({ st with bookings := st.bookings.map (confirmBooking sid) }, 200)
  | StripeEvent.checkoutSessionExpired sid =>
      match st.bookings.filter (fun b => b.stripe_payment_intent_id == sid) with
      | [booked] =>
          ({ slots := st.slots.map (fun s =>
               if s.id == booked.slot_id then { s with is_available := true } else s)
             bookings := st.bookings.filter
               (fun b => !(b.stripe_payment_intent_id == sid)) }, 200)
      | _ => (st, 200)
  | StripeEvent.otherEvent => (st, 200)

/-!
The `create-booking` edge function.  Sequence of the handler body:

1. select the slot by id with the `is_available = true` condition and
   `.single()`; on error / no row, respond 400 with message Slot not available;
2. `stripe.checkout.sessions.create` with `unit_amount: slot.base_price_cents`;
   a gateway failure throws and is answered 500 by the catch block;
3. insert a `pending` booking carrying the session id and
   `amount_paid_cents: slot.base_price_cents`; an insert error is thrown
   and answered 500;
4. `update({ is_available: false })` on the slot — the returned error object
   is discarded, so a failed update is silently ignored;
5. respond 200 with the booking id and session id.

External outcomes (gateway result, database write results) are inputs to
the model, as is the id the insert would allocate.
-/

/-- The request body fields of `create-booking`. -/
structure CustomerInfo where
  customerName : String
  customerEmail : String
  customerPhone : String
deriving DecidableEq

/-- Outcome of `stripe.checkout.sessions.create`. -/
inductive StripeSessionResult where
  | created (sessionId : String)
  | gatewayError
deriving DecidableEq

/-- Externally determined outcomes of the fallible calls of the handler. -/
structure ReserveOracles where
  stripeResult : StripeSessionResult
  insertOk : Bool
  updateOk : Bool
deriving DecidableEq

/-- The three possible responses of the handler. -/
inductive ReserveResponse where
  /-- HTTP 200 with `bookingId` and `sessionId`. -/
  | success (bookingId : Nat) (sessionId : String)
  /-- HTTP 400 with message Slot not available. -/
  | slotNotAvailable
  /-- HTTP 500 from the catch block. -/
  | serverError
deriving DecidableEq

/-- The externally visible effects of one invocation, in program order.
`evStripeCreate` records the amount sent to the gateway and whether the
slot was still stored as available at the moment the request was issued. -/
inductive ReserveEv where
  | evStripeCreate (amountCents : Nat) (slotAvailableAtCall : Bool)
  | evInsertBooking (b : BookingRow)
  | evMarkUnavailable (slotId : Nat)
deriving DecidableEq

/-- The booking row the handler inserts (part_000 lines 78–88). -/
def pendingBooking (freshBookingId slotId : Nat) (cust : CustomerInfo)
    (sessionId : String) (amountCents : Nat) : BookingRow :=
  { id := freshBookingId
    slot_id := slotId
    customer_name := cust.customerName
    customer_email := cust.customerEmail
    customer_phone := cust.customerPhone
    stripe_payment_intent_id := sessionId
    amount_paid_cents := amountCents
    status := BStatus.pending }

/-- The `create-booking` handler (part_000 lines 29–124) as a function of
the initial database state, the request, the external outcomes, and the id
the insert allocates.  Returns the final state, the response, and the
ordered effect trace. -/
def createBooking (st : DBState) (slotId : Nat) (cust : CustomerInfo)
    (orc : ReserveOracles) (freshBookingId : Nat) :
    DBState × ReserveResponse × List ReserveEv :=
  match st.slots.filter (fun s => s.id == slotId && s.is_available) with
  | [slot] =>
    let availAtCall := st.slots.any (fun s => s.id == slotId && s.is_available)
    let payEv := ReserveEv.evStripeCreate slot.base_price_cents availAtCall
    match orc.stripeResult with
    | StripeSessionResult.gatewayError => (st, ReserveResponse.serverError, [payEv])
    | StripeSessionResult.created sessionId =>
      if orc.insertOk then
        let nb := pendingBooking freshBookingId slotId cust sessionId
          slot.base_price_cents
        let st1 : DBState := { st with bookings := st.bookings ++ [nb] }
        if orc.updateOk then
          let st2 : DBState := { st1 with slots := st1.slots.map (fun s =>
            if s.id == slotId then { s with is_available := false } else s) }
          (st2, ReserveResponse.success freshBookingId sessionId,
            [payEv, ReserveEv.evInsertBooking nb, ReserveEv.evMarkUnavailable slotId])
        else
          (st1, ReserveResponse.success freshBookingId sessionId,
            [payEv, ReserveEv.evInsertBooking nb])
      else
        (st, ReserveResponse.serverError, [payEv])
  | _ => (st, ReserveResponse.slotNotAvailable, [])

/-!
The same handler as a resumable step machine, so that two concurrent
invocations can be interleaved.  Each phase boundary is an `await` of the
handler; external calls are assumed to succeed (the race of interest needs
no failures).
-/

/-- Program counter of one in-flight `create-booking` invocation. -/
inductive RPhase where
  /-- about to run the availability select -/
  | pStart
  /-- select returned a row; about to call the gateway -/
  | pChecked (slot : SlotRow)
  /-- gateway returned a session; about to insert the booking -/
  | pPaid (slot : SlotRow) (sessionId : String)
  /-- booking inserted; about to mark the slot unavailable -/
  | pInserted (bookingId : Nat) (sessionId : String)
  /-- response sent -/
  | pDone (resp : ReserveResponse)
deriving DecidableEq

/-- One in-flight invocation: its request, the session id the gateway will
return, the id its insert will allocate, and its current phase. -/
structure RInvoc where
  slotId : Nat
  cust : CustomerInfo
  sessionId : String
  bookingId : Nat
  phase : RPhase
deriving DecidableEq

/-- One step of an invocation against the shared database state. -/
def rstep (st : DBState) (inv : RInvoc) : DBState × RInvoc :=
  match inv.phase with
  | RPhase.pStart =>
    match st.slots.filter (fun s => s.id == inv.slotId && s.is_available) with
    | [slot] => (st, { inv with phase := RPhase.pChecked slot })
    | _ => (st, { inv with phase := RPhase.pDone ReserveResponse.slotNotAvailable })
  | RPhase.pChecked slot =>
    (st, { inv with phase := RPhase.pPaid slot inv.sessionId })
  | RPhase.pPaid slot sessionId =>
    let nb := pendingBooking inv.bookingId inv.slotId inv.cust sessionId
      slot.base_price_cents
    ({ st with bookings := st.bookings ++ [nb] },
      { inv with phase := RPhase.pInserted inv.bookingId sessionId })
  | RPhase.pInserted bookingId sessionId =>
    ({ st with slots := st.slots.map (fun s =>
        if s.id == inv.slotId then { s with is_available := false } else s) },
      { inv with phase := RPhase.pDone (ReserveResponse.success bookingId sessionId) })
  | RPhase.pDone _ => (st, inv)

/-- Run two invocations `a` and `b` under a schedule: `true` steps `a`,
`false` steps `b`. -/
def runSchedule (st : DBState) (a b : RInvoc) :
    List Bool → DBState × RInvoc × RInvoc
  | [] => (st, a, b)
  | true :: rest =>
    let r := rstep st a
    runSchedule r.1 r.2 b rest
  | false :: rest =>
    let r := rstep st b
    runSchedule r.1 a r.2 rest

/-!
Concrete fixtures used by witnesses and counterexamples.
-/

/-- A stored slot on court "Court A", Wednesday 1970-01-07, 17:30–19:00,
base price 85 €, current (dynamic) price 99 € so that the two are
distinguishable. -/
def exSlot (avail : Bool) : SlotRow :=
  { id := 1
    court_name := "Court A"
    slot_date := 6
    startTotalMinutes := 1050
    endTotalMinutes := 1140
    base_price_cents := 8500
    current_price_cents := 9900
    is_available := avail }

/-- A booking of `exSlot` under the given payment reference and status. -/
def exBooking (sid : String) (st : BStatus) : BookingRow :=
  { id := 7
    slot_id := 1
    customer_name := "Ann Tamm"
    customer_email := "ann@example.com"
    customer_phone := "5551234"
    stripe_payment_intent_id := sid
    amount_paid_cents := 8500
    status := st }

/-- A request body. -/
def exCustomer : CustomerInfo :=
  { customerName := "Ann Tamm"
    customerEmail := "ann@example.com"
    customerPhone := "5551234" }

/-- Oracles: every external call succeeds. -/
def allOkOracles : ReserveOracles :=
  { stripeResult := StripeSessionResult.created "cs_1"
    insertOk := true
    updateOk := true }

/-- Oracles: gateway and insert succeed, the availability update fails
(its error object is discarded by the handler). -/
def noUpdateOracles : ReserveOracles :=
  { stripeResult := StripeSessionResult.created "cs_2"
    insertOk := true
    updateOk := false }

/-!
Helper lemmas about the generated slot lists.
-/

lemma mem_of_mem_takeWhile {α : Type} {p : α → Bool} {l : List α} {x : α}
    (h : x ∈ l.takeWhile p) : x ∈ l := by
  induction l with
  | nil => simp [List.takeWhile_nil] at h
  | cons a t ih =>
    rw [List.takeWhile_cons] at h
    split at h
    · rcases List.mem_cons.mp h with h1 | h2
      · exact h1 ▸ List.mem_cons_self a t
      · exact List.mem_cons_of_mem a (ih h2)
    · simp at h

lemma mem_ticksForOffset {offset k : Nat} (h : k ∈ ticksForOffset offset) :
    k < 11 ∧ 420 + 90 * k + offset < 1380 := by
  unfold ticksForOffset at h
  have h1 : k ∈ List.range 11 := mem_of_mem_takeWhile h
  have h2 := List.mem_takeWhile_imp h
  simp only [decide_eq_true_eq] at h2
  refine ⟨List.mem_range.mp h1, ?_⟩
  omega

lemma mem_generateSlotsForDate {c : String} {offset d : Nat} {s : GenSlot}
    (hs : s ∈ generateSlotsForDate c offset d) :
    ∃ k, k < 11 ∧ 420 + 90 * k + offset < 1380 ∧ s = slotAtTick c offset d k := by
  unfold generateSlotsForDate at hs
  rw [List.mem_map] at hs
  obtain ⟨k, hk, rfl⟩ := hs
  obtain ⟨h1, h2⟩ := mem_ticksForOffset hk
  exact ⟨k, h1, h2, rfl⟩

lemma mem_generateSlotsForCourt {c : String} {offset startD endD : Nat} {s : GenSlot}
    (hs : s ∈ generateSlotsForCourt c offset startD endD) :
    ∃ d k, k < 11 ∧ s = slotAtTick c offset d k := by
  unfold generateSlotsForCourt at hs
  rw [List.mem_flatMap] at hs
  obtain ⟨i, _, hmem⟩ := hs
  obtain ⟨k, hk, _, rfl⟩ := mem_generateSlotsForDate hmem
  exact ⟨startD + i, k, hk, rfl⟩

/-- Claim C4 (amended): the operating window of each date is walked in fixed
90-minute ticks starting at `7*60 + offset`, stopping before any tick that
would start at or after `23*60`; the court with offset 0 gets first slot
07:00–08:30 (420–510) and its last slot starts at 22:00 (1320, running to
23:30 — there IS a slot starting after 21:30); the court with offset 30
gets first slot 07:30–09:00 (450–540). -/
theorem generation_tick_walk (c : String) (offset d : Nat) (s : GenSlot)
    (hs : s ∈ generateSlotsForDate c offset d) :
    (∃ k, s.startTotalMinutes = 420 + 90 * k + offset
      ∧ s.endTotalMinutes = s.startTotalMinutes + 90
      ∧ s.startTotalMinutes < 1380)
    ∧ (generateSlotsForDate c 0 d).head? = some (slotAtTick c 0 d 0)
    ∧ (slotAtTick c 0 d 0).startTotalMinutes = 420
    ∧ (slotAtTick c 0 d 0).endTotalMinutes = 510
    ∧ (generateSlotsForDate c 30 d).head? = some (slotAtTick c 30 d 0)
    ∧ (slotAtTick c 30 d 0).startTotalMinutes = 450
    ∧ (slotAtTick c 30 d 0).endTotalMinutes = 540
    ∧ (generateSlotsForDate c 0 d).getLast? = some (slotAtTick c 0 d 10)
    ∧ (slotAtTick c 0 d 10).startTotalMinutes = 1320 := by
  obtain ⟨k, _, hlt, rfl⟩ := mem_generateSlotsForDate hs
  refine ⟨⟨k, rfl, rfl, hlt⟩, ?_, rfl, rfl, ?_, rfl, rfl, ?_, rfl⟩
  · rfl
  · rfl
  · rfl

/-- Claim C4, counterexample to the claim as stated: for window
07:00–23:00, duration 90 and offset 0, the generation run does produce a
slot starting after 21:30 (1290), namely 22:00–23:30 (1320–1410). -/
theorem generation_slot_after_2130_cex :
    ((generateSlotsForCourt "Court A" 0 0 0).any
        (fun s => decide (1290 < s.startTotalMinutes))) = true
    ∧ ((generateSlotsForCourt "Court A" 0 0 0).any
        (fun s => s.startTotalMinutes == 1320 && s.endTotalMinutes == 1410)) = true := by
  constructor
  · decide
  · decide

/-- Claim C4, witness: the 10:00–11:30 slot of the offset-0 court on date 6
is a generated slot, and the tick-walk theorem applies to it. -/
theorem generation_tick_walk_witness :
    slotAtTick "Court A" 0 6 2 ∈ generateSlotsForDate "Court A" 0 6
    ∧ ((∃ k, (slotAtTick "Court A" 0 6 2).startTotalMinutes = 420 + 90 * k + 0
        ∧ (slotAtTick "Court A" 0 6 2).endTotalMinutes =
            (slotAtTick "Court A" 0 6 2).startTotalMinutes + 90
        ∧ (slotAtTick "Court A" 0 6 2).startTotalMinutes < 1380)
      ∧ (generateSlotsForDate "Court A" 0 6).head? = some (slotAtTick "Court A" 0 6 0)
      ∧ (slotAtTick "Court A" 0 6 0).startTotalMinutes = 420
      ∧ (slotAtTick "Court A" 0 6 0).endTotalMinutes = 510
      ∧ (generateSlotsForDate "Court A" 30 6).head? = some (slotAtTick "Court A" 30 6 0)
      ∧ (slotAtTick "Court A" 30 6 0).startTotalMinutes = 450
      ∧ (slotAtTick "Court A" 30 6 0).endTotalMinutes = 540
      ∧ (generateSlotsForDate "Court A" 0 6).getLast? = some (slotAtTick "Court A" 0 6 10)
      ∧ (slotAtTick "Court A" 0 6 10).startTotalMinutes = 1320) :=
  ⟨by decide, generation_tick_walk "Court A" 0 6 (slotAtTick "Court A" 0 6 2) (by decide)⟩

/-- Claim C5: the generator prices every weekday slot at a flat 40 €
(4000 cents), ignoring the configured weekday rate table entirely; on
Wednesday 1970-01-07 every generated slot carries 4000 cents — in
particular the 17:30–19:00 slot, whose start falls in the 17:00–23:00
bucket of the table (85 €), is priced 4000, not 8500 — and no slot with
interval 17:00–18:30 is generated at all (17:00 is not a tick of the
90-minute walk from 07:00 or 07:30). -/
theorem weekday_pricing_flat_40_cex :
    getDay 6 = 3
    ∧ ((generateSlotsForDate "Court A" 0 6).all
        (fun s => s.base_price_cents == 4000)) = true
    ∧ ((generateSlotsForDate "Court A" 0 6).any
        (fun s => s.startTotalMinutes == 1050 && s.endTotalMinutes == 1140
          && s.base_price_cents == 4000)) = true
    ∧ ((generateSlotsForDate "Court A" 0 6).any
        (fun s => s.startTotalMinutes == 1020)) = false
    ∧ ((generateSlotsForDate "Court B" 30 6).any
        (fun s => s.startTotalMinutes == 1020)) = false := by
  refine ⟨rfl, ?_, ?_, ?_, ?_⟩ <;> decide

/-- Claim C9: two distinct slots produced by one generation run for the
same court never have overlapping half-open `[start, end)` intervals
(absolute minutes: date times 1440 plus time of day), for any court offset
strictly below the 90-minute tick length. -/
theorem generation_no_overlap (c : String) (offset startD endD : Nat)
    (hoff : offset < 90) (s t : GenSlot)
    (hs : s ∈ generateSlotsForCourt c offset startD endD)
    (ht : t ∈ generateSlotsForCourt c offset startD endD)
    (hne : s ≠ t) :
    ¬(s.absStart < t.absEnd ∧ t.absStart < s.absEnd) := by
  obtain ⟨d1, k1, hk1, rfl⟩ := mem_generateSlotsForCourt hs
  obtain ⟨d2, k2, hk2, rfl⟩ := mem_generateSlotsForCourt ht
  have hne' : ¬(d1 = d2 ∧ k1 = k2) := by
    rintro ⟨rfl, rfl⟩
    exact hne rfl
  simp only [GenSlot.absStart, GenSlot.absEnd, slotAtTick]
  omega

/-- Claim C9, witness: the first Court B slot of date 0 and the third of
date 1 are distinct generated slots and their intervals do not overlap. -/
theorem generation_no_overlap_witness :
    (30 < 90
      ∧ slotAtTick "Court B" 30 0 0 ∈ generateSlotsForCourt "Court B" 30 0 1
      ∧ slotAtTick "Court B" 30 1 2 ∈ generateSlotsForCourt "Court B" 30 0 1
      ∧ slotAtTick "Court B" 30 0 0 ≠ slotAtTick "Court B" 30 1 2)
    ∧ ¬((slotAtTick "Court B" 30 0 0).absStart < (slotAtTick "Court B" 30 1 2).absEnd
        ∧ (slotAtTick "Court B" 30 1 2).absStart < (slotAtTick "Court B" 30 0 0).absEnd) :=
  ⟨⟨by decide, by decide, by decide, by decide⟩,
    generation_no_overlap "Court B" 30 0 1 (by decide) _ _ (by decide) (by decide)
      (by decide)⟩

/-!
Webhook lemmas.
-/

lemma confirmBooking_idem (sid : String) (b : BookingRow) :
    confirmBooking sid (confirmBooking sid b) = confirmBooking sid b := by
  by_cases h : b.stripe_payment_intent_id == sid
  · simp [confirmBooking, h]
  · simp [confirmBooking, h]

lemma map_confirmBooking_idem (sid : String) (l : List BookingRow) :
    (l.map (confirmBooking sid)).map (confirmBooking sid) = l.map (confirmBooking sid) := by
  induction l with
  | nil => rfl
  | cons b t ih => simp [confirmBooking_idem, ih]

lemma countP_map_confirmBooking (sid : String) (l : List BookingRow) :
    (l.map (confirmBooking sid)).countP
      (fun b => b.stripe_payment_intent_id == sid && b.status == BStatus.confirmed)
    = l.countP (fun b => b.stripe_payment_intent_id == sid) := by
  induction l with
  | nil => rfl
  | cons b t ih =>
    by_cases h : b.stripe_payment_intent_id == sid
    · simp [confirmBooking, h, List.countP_cons, ih]
    · simp [confirmBooking, h, List.countP_cons, ih]

/-- Claim C6: the webhook does not leave terminal booking states alone.  At
a concrete state holding a `confirmed` booking of an unavailable slot, a
`checkout.session.expired` notification for its payment reference deletes
the confirmed booking and re-releases its slot; and a
`checkout.session.completed` notification for the reference of a `cancelled`
booking flips it back to `confirmed`.  Both contradict the claimed
invariant that no notification changes a `confirmed`/`cancelled`/`completed`
booking. -/
theorem webhook_mutates_terminal_bookings :
    (handleWebhook
        { slots := [exSlot false], bookings := [exBooking "cs_1" BStatus.confirmed] }
        (StripeEvent.checkoutSessionExpired "cs_1")).1
      = { slots := [exSlot true], bookings := [] }
    ∧ (handleWebhook
        { slots := [exSlot false], bookings := [exBooking "cs_1" BStatus.cancelled] }
        (StripeEvent.checkoutSessionCompleted "cs_1")).1.bookings
      = [exBooking "cs_1" BStatus.confirmed] := by
  constructor
  · decide
  · decide

/-- Claim C7: finalize on payment success is idempotent.  If exactly one
booking carries the payment reference, then delivering
`checkout.session.completed` twice gives exactly the same state and
response as delivering it once (the re-delivery is a 200 no-op, not an
error), exactly one booking with that reference is `confirmed`, and the
slots table — in particular `is_available = false` on the sold slot — is
untouched. -/
theorem finalize_success_idempotent (st : DBState) (sid : String)
    (h : st.bookings.countP (fun b => b.stripe_payment_intent_id == sid) = 1) :
    handleWebhook (handleWebhook st (StripeEvent.checkoutSessionCompleted sid)).1
        (StripeEvent.checkoutSessionCompleted sid)
      = handleWebhook st (StripeEvent.checkoutSessionCompleted sid)
    ∧ ((handleWebhook st (StripeEvent.checkoutSessionCompleted sid)).1).bookings.countP
        (fun b => b.stripe_payment_intent_id == sid && b.status == BStatus.confirmed) = 1
    ∧ ((handleWebhook st (StripeEvent.checkoutSessionCompleted sid)).1).slots = st.slots
    ∧ (handleWebhook st (StripeEvent.checkoutSessionCompleted sid)).2 = 200 := by
  refine ⟨?_, ?_, rfl, rfl⟩
  · simp only [handleWebhook]
    simp only [Prod.mk.injEq, and_true]
    congr 1
    exact map_confirmBooking_idem sid st.bookings
  · exact (countP_map_confirmBooking sid st.bookings).trans h

/-- The pre-state of the C7 witness: one pending booking of the (sold,
unavailable) slot under reference "cs_1". -/
def exPendingState : DBState :=
  { slots := [exSlot false], bookings := [exBooking "cs_1" BStatus.pending] }

/-- Claim C7, witness: at `exPendingState` the hypothesis holds and the
idempotence theorem applies. -/
theorem finalize_success_idempotent_witness :
    exPendingState.bookings.countP
        (fun b => b.stripe_payment_intent_id == "cs_1") = 1
    ∧ (handleWebhook (handleWebhook exPendingState
          (StripeEvent.checkoutSessionCompleted "cs_1")).1
          (StripeEvent.checkoutSessionCompleted "cs_1")
        = handleWebhook exPendingState (StripeEvent.checkoutSessionCompleted "cs_1")
      ∧ ((handleWebhook exPendingState
            (StripeEvent.checkoutSessionCompleted "cs_1")).1).bookings.countP
          (fun b => b.stripe_payment_intent_id == "cs_1"
            && b.status == BStatus.confirmed) = 1
      ∧ ((handleWebhook exPendingState
            (StripeEvent.checkoutSessionCompleted "cs_1")).1).slots
          = exPendingState.slots
      ∧ (handleWebhook exPendingState (StripeEvent.checkoutSessionCompleted "cs_1")).2
          = 200) :=
  ⟨by decide, finalize_success_idempotent exPendingState "cs_1" (by decide)⟩

/-!
Reservation claims.
-/

/-- Invocation A of the race: reserve slot 1, the gateway will answer with
session "cs_A", the insert will allocate booking id 10. -/
def invA : RInvoc :=
  { slotId := 1, cust := exCustomer, sessionId := "cs_A", bookingId := 10,
    phase := RPhase.pStart }

/-- Invocation B of the race: reserve slot 1, session "cs_B", booking id 11. -/
def invB : RInvoc :=
  { slotId := 1, cust := exCustomer, sessionId := "cs_B", bookingId := 11,
    phase := RPhase.pStart }

/-- Claim C1: the availability check and the mark-unavailable write of the
handler are NOT a single check-and-flip.  Interleaving two reserve
invocations against the single available slot 1 so that both run the
availability select before either runs the update (schedule A-check,
B-check, then each continues to completion) makes BOTH respond success, and
leaves two pending bookings of slot 1 — not one success and one
slot-not-available error. -/
theorem reserve_race_two_successes :
    ((runSchedule { slots := [exSlot true], bookings := [] } invA invB
        [true, false, true, true, true, false, false, false]).2.1.phase
      = RPhase.pDone (ReserveResponse.success 10 "cs_A"))
    ∧ ((runSchedule { slots := [exSlot true], bookings := [] } invA invB
        [true, false, true, true, true, false, false, false]).2.2.phase
      = RPhase.pDone (ReserveResponse.success 11 "cs_B"))
    ∧ ((runSchedule { slots := [exSlot true], bookings := [] } invA invB
        [true, false, true, true, true, false, false, false]).1.bookings.countP
        (fun b => b.slot_id == 1 && b.status == BStatus.pending) = 2) := by
  refine ⟨?_, ?_, ?_⟩ <;> decide

/-- Claim C2: reserve is not atomic as a unit.  When the gateway call and
the booking insert succeed but the availability update fails (the handler
discards the error object of the update), the final state holds an orphaned
pending booking while the slot is still stored available, and the handler
still responds success. -/
theorem reserve_not_atomic_on_update_failure :
    ((createBooking { slots := [exSlot true], bookings := [] } 1 exCustomer
        noUpdateOracles 7).1.bookings
      = [pendingBooking 7 1 exCustomer "cs_2" 8500])
    ∧ ((createBooking { slots := [exSlot true], bookings := [] } 1 exCustomer
        noUpdateOracles 7).1.slots = [exSlot true])
    ∧ ((createBooking { slots := [exSlot true], bookings := [] } 1 exCustomer
        noUpdateOracles 7).2.1 = ReserveResponse.success 7 "cs_2") := by
  refine ⟨?_, ?_, ?_⟩ <;> decide

/-- Claim C3: the payment request is issued to the gateway BEFORE the slot
is marked unavailable — at the moment the handler calls
`stripe.checkout.sessions.create`, the slot is still stored as available
(first trace event `evStripeCreate 8500 true`), and the invocation then
completes successfully. -/
theorem reserve_calls_gateway_while_available :
    ((createBooking { slots := [exSlot true], bookings := [] } 1 exCustomer
        allOkOracles 7).2.2.head?
      = some (ReserveEv.evStripeCreate 8500 true))
    ∧ ((createBooking { slots := [exSlot true], bookings := [] } 1 exCustomer
        allOkOracles 7).2.1 = ReserveResponse.success 7 "cs_1") := by
  refine ⟨?_, ?_⟩ <;> decide

/-- Claim C10: whatever the external outcomes, every amount the handler
sends to the payment gateway and every `amount_paid_cents` it writes on a
created booking equal the `base_price_cents` of the selected slot; its
`current_price_cents` plays no part (the conclusion determines the charged
amount from `base_price_cents` alone, whatever `current_price_cents`
holds). -/
theorem reserve_charges_base_price (st : DBState) (slotId : Nat)
    (cust : CustomerInfo) (orc : ReserveOracles) (freshBookingId : Nat)
    (slot : SlotRow)
    (hfind : st.slots.filter (fun s => s.id == slotId && s.is_available) = [slot]) :
    (∀ a av, ReserveEv.evStripeCreate a av ∈
        (createBooking st slotId cust orc freshBookingId).2.2 →
      a = slot.base_price_cents)
    ∧ (∀ b, ReserveEv.evInsertBooking b ∈
        (createBooking st slotId cust orc freshBookingId).2.2 →
      b.amount_paid_cents = slot.base_price_cents) := by
  unfold createBooking
  rw [hfind]
  obtain ⟨sr, iok, uok⟩ := orc
  cases sr with
  | gatewayError =>
    constructor
    · intro a av ha
      simp_all
    · intro b hb
      simp_all
  | created sessionId =>
    cases iok <;> cases uok <;>
      refine ⟨?_, ?_⟩ <;>
      · intros
        simp_all [pendingBooking]

/-- Claim C10, witness: at the concrete state whose slot has
`base_price_cents = 8500` and `current_price_cents = 9900`, the select
returns the slot and the theorem applies: the gateway is asked for 8500 and
the booking records 8500. -/
theorem reserve_charges_base_price_witness :
    (({ slots := [exSlot true], bookings := [] } : DBState).slots.filter
        (fun s => s.id == 1 && s.is_available) = [exSlot true])
    ∧ ((∀ a av, ReserveEv.evStripeCreate a av ∈
          (createBooking { slots := [exSlot true], bookings := [] } 1 exCustomer
            allOkOracles 7).2.2 →
        a = (exSlot true).base_price_cents)
      ∧ (∀ b, ReserveEv.evInsertBooking b ∈
          (createBooking { slots := [exSlot true], bookings := [] } 1 exCustomer
            allOkOracles 7).2.2 →
        b.amount_paid_cents = (exSlot true).base_price_cents)) :=
  ⟨by decide,
    reserve_charges_base_price { slots := [exSlot true], bookings := [] } 1
      exCustomer allOkOracles 7 (exSlot true) (by decide)⟩

/-!
Upsert lemmas (claim C8).
-/

lemma sameKey_iff (r : SlotRow) (s : GenSlot) :
    sameKey r s = true ↔
      (r.court_name = s.court_name ∧ r.slot_date = s.slot_date
        ∧ r.startTotalMinutes = s.startTotalMinutes) := by
  simp [sameKey, and_assoc]

lemma upsertRow_map_rowKey (table : List SlotRow) (nextId : Nat) (s : GenSlot)
    (h : table.any (fun r => sameKey r s) = true) :
    ((upsertRow table nextId s).1).map rowKey = table.map rowKey := by
  unfold upsertRow
  rw [if_pos h, List.map_map]
  apply List.map_congr_left
  intro r _
  simp only [Function.comp_apply]
  by_cases hk : sameKey r s
  · rw [if_pos hk]
    rfl
  · rw [if_neg hk]

lemma upsertRow_nodup (table : List SlotRow) (nextId : Nat) (s : GenSlot)
    (h : (table.map rowKey).Nodup) :
    (((upsertRow table nextId s).1).map rowKey).Nodup := by
  by_cases hany : table.any (fun r => sameKey r s) = true
  · rw [upsertRow_map_rowKey table nextId s hany]
    exact h
  · unfold upsertRow
    rw [if_neg hany, List.map_append]
    refine h.append (List.nodup_singleton _) ?_
    intro x hx1 hx2
    obtain ⟨r, hr, hkey⟩ := List.mem_map.mp hx1
    simp only [List.map_cons, List.map_nil, List.mem_singleton] at hx2
    rw [hx2] at hkey
    have hk : sameKey r s = true := by
      rw [sameKey_iff]
      have h1 := congrArg Prod.fst hkey
      have h2 := congrArg (fun p => p.2.1) hkey
      have h3 := congrArg (fun p => p.2.2) hkey
      exact ⟨h1, h2, h3⟩
    rw [List.any_eq_true] at hany
    exact hany ⟨r, hr, hk⟩

lemma upsertRow_pres (table : List SlotRow) (nextId : Nat) (s : GenSlot)
    (hs90 : s.endTotalMinutes = s.startTotalMinutes + 90)
    (r : SlotRow) (hr : r ∈ table)
    (hr90 : r.endTotalMinutes = r.startTotalMinutes + 90) :
    ∃ r2 ∈ (upsertRow table nextId s).1,
      r2.id = r.id ∧ r2.court_name = r.court_name ∧ r2.slot_date = r.slot_date
      ∧ r2.startTotalMinutes = r.startTotalMinutes
      ∧ r2.endTotalMinutes = r.endTotalMinutes
      ∧ r2.is_available = r.is_available
      ∧ r2.current_price_cents = r.current_price_cents := by
  unfold upsertRow
  split
  · refine ⟨if sameKey r s then
        { r with endTotalMinutes := s.endTotalMinutes,
                 base_price_cents := s.base_price_cents }
      else r, List.mem_map_of_mem _ hr, ?_⟩
    by_cases hk : sameKey r s
    · obtain ⟨_, _, hstart⟩ := (sameKey_iff r s).mp hk
      rw [if_pos hk]
      refine ⟨rfl, rfl, rfl, rfl, ?_, rfl, rfl⟩
      show s.endTotalMinutes = r.endTotalMinutes
      omega
    · rw [if_neg hk]
      exact ⟨rfl, rfl, rfl, rfl, rfl, rfl, rfl⟩
  · exact ⟨r, List.mem_append_left _ hr, rfl, rfl, rfl, rfl, rfl, rfl, rfl⟩

/-- Claim C8: the generation write is an idempotent upsert keyed by
`(court_name, slot_date, start_time)`.  Starting from a table with
distinct keys, upserting any payload of generated slots (every generated
slot satisfies `end = start + 90`) keeps the keys distinct (no duplicate
rows for an existing slot), and every existing row — in particular one
already carrying `is_available = false` — survives with its `id` (booking
linkage), key, interval, availability and `current_price_cents` unchanged:
only `base_price_cents` can have been refreshed. -/
theorem regenerate_upsert_frame (table : List SlotRow) (nextId : Nat)
    (slots : List GenSlot)
    (hkeys : (table.map rowKey).Nodup)
    (hgen : ∀ s ∈ slots, s.endTotalMinutes = s.startTotalMinutes + 90) :
    (((upsertSlots table nextId slots).1).map rowKey).Nodup
    ∧ ∀ r ∈ table, r.endTotalMinutes = r.startTotalMinutes + 90 →
        ∃ r2 ∈ (upsertSlots table nextId slots).1,
          r2.id = r.id ∧ r2.court_name = r.court_name ∧ r2.slot_date = r.slot_date
          ∧ r2.startTotalMinutes = r.startTotalMinutes
          ∧ r2.endTotalMinutes = r.endTotalMinutes
          ∧ r2.is_available = r.is_available
          ∧ r2.current_price_cents = r.current_price_cents := by
  revert hkeys hgen
  induction slots generalizing table nextId with
  | nil =>
    intro hkeys _
    refine ⟨hkeys, ?_⟩
    intro r hr _
    exact ⟨r, hr, rfl, rfl, rfl, rfl, rfl, rfl, rfl⟩
  | cons s rest ih =>
    intro hkeys hgen
    have hstep : upsertSlots table nextId (s :: rest)
        = upsertSlots (upsertRow table nextId s).1 (upsertRow table nextId s).2 rest := rfl
    rw [hstep]
    have h90s : s.endTotalMinutes = s.startTotalMinutes + 90 :=
      hgen s (List.mem_cons_self s rest)
    have hgen2 : ∀ s2 ∈ rest, s2.endTotalMinutes = s2.startTotalMinutes + 90 :=
      fun s2 h2 => hgen s2 (List.mem_cons_of_mem s h2)
    have hk1 := upsertRow_nodup table nextId s hkeys
    obtain ⟨hn, hpres⟩ := ih (upsertRow table nextId s).1 (upsertRow table nextId s).2 hk1 hgen2
    refine ⟨hn, ?_⟩
    intro r hr hr90
    obtain ⟨r1, hr1mem, hid, hc, hd, hst, hend, hav, hcur⟩ :=
      upsertRow_pres table nextId s h90s r hr hr90
    have hr190 : r1.endTotalMinutes = r1.startTotalMinutes + 90 := by
      rw [hend, hst]
      exact hr90
    obtain ⟨r2, hr2mem, gid, gc, gd, gst, gend, gav, gcur⟩ := hpres r1 hr1mem hr190
    exact ⟨r2, hr2mem, gid.trans hid, gc.trans hc, gd.trans hd, gst.trans hst,
      gend.trans hend, gav.trans hav, gcur.trans hcur⟩

/-- Claim C8, witness: re-running generation for Wednesday (date 6) over a
table already holding the booked (unavailable) 17:30–19:00 row updates in
place — keys stay distinct and the row keeps its id, key, interval,
availability and current price. -/
theorem regenerate_upsert_frame_witness :
    ((([exSlot false].map rowKey).Nodup
      ∧ ∀ s ∈ generateSlotsForCourt "Court A" 0 6 6,
          s.endTotalMinutes = s.startTotalMinutes + 90)
    ∧ ((((upsertSlots [exSlot false] 2 (generateSlotsForCourt "Court A" 0 6 6)).1).map
          rowKey).Nodup
      ∧ ∀ r ∈ [exSlot false], r.endTotalMinutes = r.startTotalMinutes + 90 →
          ∃ r2 ∈ (upsertSlots [exSlot false] 2 (generateSlotsForCourt "Court A" 0 6 6)).1,
            r2.id = r.id ∧ r2.court_name = r.court_name ∧ r2.slot_date = r.slot_date
            ∧ r2.startTotalMinutes = r.startTotalMinutes
            ∧ r2.endTotalMinutes = r.endTotalMinutes
            ∧ r2.is_available = r.is_available
            ∧ r2.current_price_cents = r.current_price_cents)) :=
  ⟨⟨by decide, by decide⟩,
    regenerate_upsert_frame [exSlot false] 2 (generateSlotsForCourt "Court A" 0 6 6)
      (by decide) (by decide)⟩
